import Mathlib

/-!
Verification of EaselJS `DOMElement` (src/src/display/DOMElement.js).

A shallow embedding of the `DOMElement` bridge class and its per-frame
synchronization routine `_handleDrawEnd`, together with the lifecycle stubs
(`cache`, `clone`, ...) and the `_tick` draw-end subscription.

Modelling conventions:
* JS numbers are idealized as rationals (`ℚ`); the style values involved stay
  far below the `ToInt32` wrap, so the JS `x|0` operator is modelled as exact
  truncation toward zero (`trunc0`).
* The external DOM element is modelled by the style properties the class
  writes (`visibility`, `transform`, `opacity`); every style write performed
  during a synchronization cycle is also recorded in an ordered list, so that
  "zero writes" claims are about that list.
* The vendor-prefixed transform properties (`WebkitTransform`, `MozTransform`,
  ...) all receive the same numbers, so the group of assignments at lines
  209-211 is one logical transform write carrying those numbers.
* The numbers interpolated into the `matrix(...)` string and into the opacity
  string are carried structurally (`TransformPayload`, `ℚ`); JS
  number-to-string is injective, so equality of payloads is exactly equality
  of the emitted strings.
* The cached `_oldProps` object is created as `new DisplayProps(true, NaN)`;
  since `NaN != x` is true for every JS number `x`, the cached alpha is
  modelled as `Option ℚ` with `none` standing for the `NaN` sentinel.
-/

namespace EaselJS

/-- 2D affine matrix with components `(a, b, c, d, tx, ty)`, as carried by the
`matrix` field of the concatenated display props. -/
structure Matrix2D where
  a : ℚ
  b : ℚ
  c : ℚ
  d : ℚ
  tx : ℚ
  ty : ℚ
deriving DecidableEq, Repr

/-- Modelled from the spec: `Matrix2D.equals` (the geometry class is outside
src/) — "compare the snapshot matrix against the cached last-applied matrix
using exact component equality", i.e. structural equality of the six
components. -/
def Matrix2D.equals (m1 m2 : Matrix2D) : Bool :=
  decide (m1 = m2)

/-- The TransformSnapshot consumed by `_handleDrawEnd`: the result of
`getConcatenatedDisplayProps` (matrix, alpha, visible). -/
structure DisplayProps where
  matrix : Matrix2D
  alpha : ℚ
  visible : Bool
deriving DecidableEq, Repr

/-- The cached `_oldProps` object: last-applied matrix and alpha. The alpha is
`none` while it still holds the `NaN` it was seeded with by
`new DisplayProps(true, NaN)` (line 212). -/
structure OldProps where
  matrix : Matrix2D
  alpha : Option ℚ
deriving DecidableEq, Repr

/-- JS `x|0` on the style values at hand: truncation toward zero. -/
def trunc0 (q : ℚ) : ℚ := ((if 0 ≤ q then ⌊q⌋ else ⌈q⌉ : ℤ) : ℚ)

/-- `(x*n|0)/n` with `n = 10000` (line 206): fixed-point truncation toward
zero to 4 decimal digits. -/
def fix4 (q : ℚ) : ℚ := trunc0 (q * 10000) / 10000

/-- The six numbers interpolated into the emitted
`matrix(a,b,c,d,tx,ty)` placement string (lines 209-211): the four linear
components via `(x*10000|0)/10000` and the two translations via `(x+0.5|0)`. -/
structure TransformPayload where
  a : ℚ
  b : ℚ
  c : ℚ
  d : ℚ
  tx : ℚ
  ty : ℚ
deriving DecidableEq, Repr

/-- Builds the payload of lines 209-211 from the snapshot matrix. -/
def transformPayload (m : Matrix2D) : TransformPayload where
  a := fix4 m.a
  b := fix4 m.b
  c := fix4 m.c
  d := fix4 m.d
  tx := trunc0 (m.tx + 1/2)
  ty := trunc0 (m.ty + 1/2)

/-- One style write performed on the bound element during a cycle. -/
inductive StyleWrite where
  | visibility (v : String)
  | transform (p : TransformPayload)
  | opacity (q : ℚ)
deriving DecidableEq, Repr

/-- The style properties of the bound element that `DOMElement` touches per
frame. `transform` and `opacity` are `none` until first written. -/
structure ElementStyle where
  visibility : String
  transform : Option TransformPayload
  opacity : Option ℚ
deriving DecidableEq, Repr

/-- The observable state of a `DOMElement` instance: the bound element (with
its style), or `none` when no element is bound, plus the `_oldProps` cache. -/
structure DOMElementState where
  htmlElement : Option ElementStyle
  oldProps : Option OldProps
deriving DecidableEq, Repr

/-- `oldProps.alpha != props.alpha` (line 216), where a `none` cache models the
`NaN` sentinel (`NaN != x` is true for every `x`). -/
def alphaNe (cached : Option ℚ) (a : ℚ) : Bool :=
  match cached with
  | none => true
  | some b => decide (b ≠ a)

/-- The condition of line 208, `!oldMtx || !oldMtx.equals(mtx)`: whether the
transform branch runs. -/
def matrixStepTaken (cached : Option OldProps) (mtx : Matrix2D) : Bool :=
  match cached with
  | none => true
  | some op => ! (op.matrix.equals mtx)

/-- `props.visible ? "visible" : "hidden"` (line 201). -/
def visString (visible : Bool) : String :=
  if visible then "visible" else "hidden"

/-- Line 202: `if (visibility != style.visibility) { style.visibility = visibility; }`
— the resulting visibility property of the element. -/
def applyVisibility (v : String) (st : ElementStyle) : ElementStyle :=
  if v = st.visibility then st else { st with visibility := v }

/-- Line 202, as the list of writes it performs: one write when the value
differs from the current one, none otherwise. -/
def visibilityWrites (v : String) (st : ElementStyle) : List StyleWrite :=
  if v = st.visibility then [] else [.visibility v]

/-- Lines 205-219 of `_handleDrawEnd`, reached only when the element is bound
and the snapshot is visible: the transform branch followed by the opacity
branch. Returns the updated style, the updated `_oldProps` (always created by
the transform branch when it was absent), and the writes performed, or `none`
exactly when the JS would dereference a null `_oldProps` at line 216. -/
def syncVisible (style1 : ElementStyle) (cached : Option OldProps)
    (mtx : Matrix2D) (alpha : ℚ) :
    Option (ElementStyle × OldProps × List StyleWrite) :=
  let doMtx := matrixStepTaken cached mtx
  let p := transformPayload mtx
  let style2 := if doMtx then { style1 with transform := some p } else style1
  let mtxWrites : List StyleWrite := if doMtx then [.transform p] else []
  let cached2 : Option OldProps :=
    if doMtx then
      some (match cached with
            | none => { matrix := mtx, alpha := none }
            | some op => { op with matrix := mtx })
    else cached
  match cached2 with
  | none => none
  | some op =>
    if alphaNe op.alpha alpha then
      some ({ style2 with opacity := some (fix4 alpha) },
            { op with alpha := some alpha },
            mtxWrites ++ [.opacity (fix4 alpha)])
    else
      some (style2, op, mtxWrites)

/-- `_handleDrawEnd` (lines 194-220). The snapshot `props` stands for the
result of `getConcatenatedDisplayProps` (delegated to the base class).
Returns the post-state and the ordered list of style writes, or `none`
exactly when the JS would throw (which `domElement_opacityCacheSafe` rules
out). -/
def handleDrawEnd (s : DOMElementState) (props : DisplayProps) :
    Option (DOMElementState × List StyleWrite) :=
  match s.htmlElement with
  | none => some (s, [])
  | some style0 =>
    let visibility := visString props.visible
    let visWrites := visibilityWrites visibility style0
    let style1 := applyVisibility visibility style0
    if props.visible = false then
      some ({ s with htmlElement := some style1 }, visWrites)
    else
      match syncVisible style1 s.oldProps props.matrix props.alpha with
      | none => none
      | some (style2, op, ws) =>
        some ({ htmlElement := some style2, oldProps := some op },
              visWrites ++ ws)

/-- `clone` (lines 172-174): always throws `"DOMElement cannot be cloned."`.
The result carries the raised error together with the untouched instance
state and the (empty) list of style writes the call performed. -/
def DOMElement.clone (s : DOMElementState) :
    Except String DOMElementState × DOMElementState × List StyleWrite :=
  (Except.error "DOMElement cannot be cloned.", s, [])

/-- `cache` (line 130): empty body; arguments (the usual display-object cache
rectangle) are ignored, nothing is touched, nothing is written. -/
def DOMElement.cache (_x _y _width _height _scale : ℚ)
    (s : DOMElementState) : DOMElementState × List StyleWrite :=
  (s, [])

/-- `uncache` (line 136): empty body. -/
def DOMElement.uncache (s : DOMElementState) : DOMElementState × List StyleWrite :=
  (s, [])

/-- `updateCache` (line 142): empty body. -/
def DOMElement.updateCache (_compositeOperation : String)
    (s : DOMElementState) : DOMElementState × List StyleWrite :=
  (s, [])

/-- `hitTest` (line 148): empty body. -/
def DOMElement.hitTest (_x _y : ℚ) (s : DOMElementState) :
    DOMElementState × List StyleWrite :=
  (s, [])

/-- `localToGlobal` (line 154): empty body. -/
def DOMElement.localToGlobal (_x _y : ℚ) (s : DOMElementState) :
    DOMElementState × List StyleWrite :=
  (s, [])

/-- `globalToLocal` (line 160): empty body. -/
def DOMElement.globalToLocal (_x _y : ℚ) (s : DOMElementState) :
    DOMElementState × List StyleWrite :=
  (s, [])

/-- `localToLocal` (line 166): empty body. -/
def DOMElement.localToLocal (_x _y : ℚ) (_target : Option ElementStyle)
    (s : DOMElementState) : DOMElementState × List StyleWrite :=
  (s, [])

/-- Modelled from the spec: the registry of this node on the stage drawend
signal, as the number of live registrations of `_handleDrawEnd` for it (the
`EventDispatcher` class is outside src/). Section 6 of the spec requires
"at-most-once registration per subscriber", so `on` adds the listener only
when it is not yet registered. -/
def stageOn (c : ℕ) : ℕ :=
  if c = 0 then 1 else c

/-- `_tick` (lines 183-187): `stage && stage.on("drawend", this._handleDrawEnd,
this, true)` — the node subscribes only while attached to a stage, then defers
to the base class (which does not touch the registration). -/
def tickStep (attached : Bool) (c : ℕ) : ℕ :=
  if attached then stageOn c else c

/-- The registration count after a sequence of ticks; each list entry records
whether the node was attached to a stage at that tick. -/
def ticksFold (bs : List Bool) (c : ℕ) : ℕ :=
  bs.foldl (fun a b => tickStep b a) c

/-- Modelled from the spec: the drawend dispatch. Every live registration runs
once for the signal, and `once = true` (line 185) then removes it. Returns the
number of times `_handleDrawEnd` runs for this signal, paired with the
registrations that remain afterwards. -/
def drawendDispatch (c : ℕ) : ℕ × ℕ :=
  (c, 0)

/-! Concrete scenarios used by counterexamples and witnesses. `exStyle0` is a
freshly bound element whose style properties have never been written. -/

/-- A fresh element: style values never written by this class. -/
def exStyle0 : ElementStyle :=
  { visibility := "", transform := none, opacity := none }

/-- A fresh binding: element bound, `_oldProps` still null. -/
def exS0 : DOMElementState :=
  { htmlElement := some exStyle0, oldProps := none }

/-- Snapshot matrix with the translations of the spec examples:
`tx = 3.7`, `ty = -2.2`. -/
def cexM : Matrix2D :=
  { a := 1, b := 0, c := 0, d := 1, tx := 37/10, ty := -11/5 }

/-- Visible snapshot carrying `cexM` at full opacity. -/
def cexProps : DisplayProps :=
  { matrix := cexM, alpha := 1, visible := true }

/-- The payload actually emitted for `cexM`: translations `4` and `-1`. -/
def cexP : TransformPayload :=
  { a := 1, b := 0, c := 0, d := 1, tx := 4, ty := -1 }

/-- The writes of the first cycle on `exS0` under `cexProps`. -/
def cexWrites : List StyleWrite :=
  [.visibility "visible", .transform cexP, .opacity 1]

/-- The state after that first cycle. -/
def cexS1 : DOMElementState :=
  { htmlElement := some { visibility := "visible", transform := some cexP,
                          opacity := some 1 },
    oldProps := some { matrix := cexM, alpha := some 1 } }

/-- The same snapshot with cumulative visibility false. -/
def cexPropsH : DisplayProps :=
  { matrix := cexM, alpha := 1, visible := false }

/-- A state with no element bound. -/
def exSNone : DOMElementState :=
  { htmlElement := none, oldProps := none }

/-- Identity snapshot matrix for the opacity scenario. -/
def exMId : Matrix2D :=
  { a := 1, b := 0, c := 0, d := 1, tx := 0, ty := 0 }

/-- Payload emitted for the identity matrix. -/
def exPId : TransformPayload :=
  { a := 1, b := 0, c := 0, d := 1, tx := 0, ty := 0 }

/-- First snapshot of the opacity scenario: opacity exactly 1/2. -/
def exProps10a : DisplayProps :=
  { matrix := exMId, alpha := 1/2, visible := true }

/-- Second snapshot: opacity `0.50001`, within `10^-4` of the first. -/
def exProps10b : DisplayProps :=
  { matrix := exMId, alpha := 50001/100000, visible := true }

/-- State after the first opacity-scenario cycle: the cache holds the raw
snapshot opacity `1/2`. -/
def exS10b : DOMElementState :=
  { htmlElement := some { visibility := "visible", transform := some exPId,
                          opacity := some (1/2) },
    oldProps := some { matrix := exMId, alpha := some (1/2) } }

/-- State after the second opacity-scenario cycle: the formatted opacity is
unchanged, the cache now holds the raw `0.50001`. -/
def exS10c : DOMElementState :=
  { htmlElement := some { visibility := "visible", transform := some exPId,
                          opacity := some (1/2) },
    oldProps := some { matrix := exMId, alpha := some (50001/100000) } }

end EaselJS

namespace EaselJS

theorem ceil_as_floor (q : ℚ) : ⌈q⌉ = -⌊-q⌋ := by
  rw [← Int.ceil_neg, neg_neg]

theorem trunc0_half_up_pos : trunc0 ((37:ℚ)/10 + 1/2) = 4 := by
  norm_num [trunc0]

theorem trunc0_half_up_neg : trunc0 ((-11:ℚ)/5 + 1/2) = -1 := by
  norm_num [trunc0, ceil_as_floor]

theorem visible_ne_empty : ¬ (("visible" : String) = "") := by decide

theorem hidden_ne_empty : ¬ (("hidden" : String) = "") := by decide

theorem hidden_ne_visible : ¬ (("hidden" : String) = "visible") := by decide

theorem applyVisibility_vis (v : String) (st : ElementStyle) :
    (applyVisibility v st).visibility = v := by
  by_cases h : v = st.visibility
  · simp [applyVisibility, h]
  · simp [applyVisibility, h]

theorem applyVisibility_of_eq {v : String} {st : ElementStyle}
    (h : v = st.visibility) : applyVisibility v st = st := by
  simp [applyVisibility, h]

theorem visibilityWrites_of_eq {v : String} {st : ElementStyle}
    (h : v = st.visibility) : visibilityWrites v st = [] := by
  simp [visibilityWrites, h]

theorem visibilityWrites_mem {v : String} {st : ElementStyle} {w : StyleWrite}
    (hw : w ∈ visibilityWrites v st) : w = .visibility v := by
  by_cases h : v = st.visibility
  · simp [visibilityWrites, h] at hw
  · simp [visibilityWrites, h] at hw
    exact hw

theorem handleDrawEnd_unbound (s : DOMElementState) (props : DisplayProps)
    (h : s.htmlElement = none) : handleDrawEnd s props = some (s, []) := by
  simp [handleDrawEnd, h]

theorem handleDrawEnd_invisible (s : DOMElementState) (props : DisplayProps)
    (st : ElementStyle) (hst : s.htmlElement = some st)
    (hv : props.visible = false) :
    handleDrawEnd s props =
      some ({ s with htmlElement := some (applyVisibility "hidden" st) },
            visibilityWrites "hidden" st) := by
  simp [handleDrawEnd, hst, hv, visString]

theorem handleDrawEnd_visible (s : DOMElementState) (props : DisplayProps)
    (st st2 : ElementStyle) (op : OldProps) (ws : List StyleWrite)
    (hst : s.htmlElement = some st) (hv : props.visible = true)
    (hsv : syncVisible (applyVisibility "visible" st) s.oldProps
             props.matrix props.alpha = some (st2, op, ws)) :
    handleDrawEnd s props =
      some ({ htmlElement := some st2, oldProps := some op },
            visibilityWrites "visible" st ++ ws) := by
  simp [handleDrawEnd, hst, hv, visString, hsv]

theorem syncVisible_none (st1 : ElementStyle) (mtx : Matrix2D) (alpha : ℚ) :
    syncVisible st1 none mtx alpha =
      some ({ st1 with transform := some (transformPayload mtx),
                       opacity := some (fix4 alpha) },
            { matrix := mtx, alpha := some alpha },
            [.transform (transformPayload mtx), .opacity (fix4 alpha)]) := by
  simp [syncVisible, matrixStepTaken, alphaNe]

theorem syncVisible_mtx_alpha (st1 : ElementStyle) (op0 : OldProps)
    (mtx : Matrix2D) (alpha : ℚ)
    (hm : matrixStepTaken (some op0) mtx = true)
    (ha : alphaNe op0.alpha alpha = true) :
    syncVisible st1 (some op0) mtx alpha =
      some ({ st1 with transform := some (transformPayload mtx),
                       opacity := some (fix4 alpha) },
            { matrix := mtx, alpha := some alpha },
            [.transform (transformPayload mtx), .opacity (fix4 alpha)]) := by
  simp [syncVisible, hm, ha]

theorem syncVisible_mtx_only (st1 : ElementStyle) (op0 : OldProps)
    (mtx : Matrix2D) (alpha : ℚ)
    (hm : matrixStepTaken (some op0) mtx = true)
    (ha : alphaNe op0.alpha alpha = false) :
    syncVisible st1 (some op0) mtx alpha =
      some ({ st1 with transform := some (transformPayload mtx) },
            { op0 with matrix := mtx },
            [.transform (transformPayload mtx)]) := by
  simp [syncVisible, hm, ha]

theorem syncVisible_alpha_only (st1 : ElementStyle) (op0 : OldProps)
    (mtx : Matrix2D) (alpha : ℚ)
    (hm : matrixStepTaken (some op0) mtx = false)
    (ha : alphaNe op0.alpha alpha = true) :
    syncVisible st1 (some op0) mtx alpha =
      some ({ st1 with opacity := some (fix4 alpha) },
            { op0 with alpha := some alpha },
            [.opacity (fix4 alpha)]) := by
  simp [syncVisible, hm, ha]

theorem syncVisible_skip (st1 : ElementStyle) (op0 : OldProps)
    (mtx : Matrix2D) (alpha : ℚ)
    (hm : matrixStepTaken (some op0) mtx = false)
    (ha : alphaNe op0.alpha alpha = false) :
    syncVisible st1 (some op0) mtx alpha = some (st1, op0, []) := by
  simp [syncVisible, hm, ha]

theorem matrixStepTaken_some_none (mtx : Matrix2D) :
    matrixStepTaken none mtx = true := rfl

theorem syncVisible_isSome (st1 : ElementStyle) (cached : Option OldProps)
    (mtx : Matrix2D) (alpha : ℚ) :
    (syncVisible st1 cached mtx alpha).isSome := by
  cases cached with
  | none => rw [syncVisible_none]; rfl
  | some op0 =>
    by_cases hm : matrixStepTaken (some op0) mtx = true
    · by_cases ha : alphaNe op0.alpha alpha = true
      · rw [syncVisible_mtx_alpha st1 op0 mtx alpha hm ha]; rfl
      · rw [syncVisible_mtx_only st1 op0 mtx alpha hm
          (by simpa using ha)]; rfl
    · by_cases ha : alphaNe op0.alpha alpha = true
      · rw [syncVisible_alpha_only st1 op0 mtx alpha (by simpa using hm) ha]; rfl
      · rw [syncVisible_skip st1 op0 mtx alpha (by simpa using hm)
          (by simpa using ha)]; rfl

theorem syncVisible_post (st1 st2 : ElementStyle) (cached : Option OldProps)
    (op : OldProps) (mtx : Matrix2D) (alpha : ℚ) (ws : List StyleWrite)
    (h : syncVisible st1 cached mtx alpha = some (st2, op, ws)) :
    st2.visibility = st1.visibility ∧
    matrixStepTaken (some op) mtx = false ∧
    alphaNe op.alpha alpha = false := by
  cases cached with
  | none =>
    rw [syncVisible_none] at h
    simp only [Option.some.injEq, Prod.mk.injEq] at h
    obtain ⟨h1, h2, h3⟩ := h
    subst h1; subst h2
    simp [matrixStepTaken, Matrix2D.equals, alphaNe]
  | some op0 =>
    by_cases hm : matrixStepTaken (some op0) mtx = true
    · by_cases ha : alphaNe op0.alpha alpha = true
      · rw [syncVisible_mtx_alpha st1 op0 mtx alpha hm ha] at h
        simp only [Option.some.injEq, Prod.mk.injEq] at h
        obtain ⟨h1, h2, h3⟩ := h
        subst h1; subst h2
        simp [matrixStepTaken, Matrix2D.equals, alphaNe]
      · rw [syncVisible_mtx_only st1 op0 mtx alpha hm (by simpa using ha)] at h
        simp only [Option.some.injEq, Prod.mk.injEq] at h
        obtain ⟨h1, h2, h3⟩ := h
        subst h1; subst h2
        refine ⟨rfl, by simp [matrixStepTaken, Matrix2D.equals], by simpa using ha⟩
    · by_cases ha : alphaNe op0.alpha alpha = true
      · rw [syncVisible_alpha_only st1 op0 mtx alpha (by simpa using hm) ha] at h
        simp only [Option.some.injEq, Prod.mk.injEq] at h
        obtain ⟨h1, h2, h3⟩ := h
        subst h1; subst h2
        refine ⟨rfl, by simpa [matrixStepTaken] using hm, by simp [alphaNe]⟩
      · rw [syncVisible_skip st1 op0 mtx alpha (by simpa using hm)
          (by simpa using ha)] at h
        simp only [Option.some.injEq, Prod.mk.injEq] at h
        obtain ⟨h1, h2, h3⟩ := h
        subst h1; subst h2
        exact ⟨rfl, by simpa using hm, by simpa using ha⟩

theorem syncVisible_stable (st2 : ElementStyle) (op : OldProps) (mtx : Matrix2D)
    (alpha : ℚ) (hm : matrixStepTaken (some op) mtx = false)
    (ha : alphaNe op.alpha alpha = false) :
    syncVisible st2 (some op) mtx alpha = some (st2, op, []) :=
  syncVisible_skip st2 op mtx alpha hm ha

theorem syncVisible_writes (st1 st2 : ElementStyle) (cached : Option OldProps)
    (op : OldProps) (mtx : Matrix2D) (alpha : ℚ) (ws : List StyleWrite)
    (h : syncVisible st1 cached mtx alpha = some (st2, op, ws)) :
    ∀ w ∈ ws, w = .transform (transformPayload mtx) ∨ w = .opacity (fix4 alpha) := by
  cases cached with
  | none =>
    rw [syncVisible_none] at h
    simp only [Option.some.injEq, Prod.mk.injEq] at h
    obtain ⟨h1, h2, h3⟩ := h
    subst h3; simp
  | some op0 =>
    by_cases hm : matrixStepTaken (some op0) mtx = true
    · by_cases ha : alphaNe op0.alpha alpha = true
      · rw [syncVisible_mtx_alpha st1 op0 mtx alpha hm ha] at h
        simp only [Option.some.injEq, Prod.mk.injEq] at h
        obtain ⟨h1, h2, h3⟩ := h
        subst h3; simp
      · rw [syncVisible_mtx_only st1 op0 mtx alpha hm (by simpa using ha)] at h
        simp only [Option.some.injEq, Prod.mk.injEq] at h
        obtain ⟨h1, h2, h3⟩ := h
        subst h3; simp
    · by_cases ha : alphaNe op0.alpha alpha = true
      · rw [syncVisible_alpha_only st1 op0 mtx alpha (by simpa using hm) ha] at h
        simp only [Option.some.injEq, Prod.mk.injEq] at h
        obtain ⟨h1, h2, h3⟩ := h
        subst h3; simp
      · rw [syncVisible_skip st1 op0 mtx alpha (by simpa using hm)
          (by simpa using ha)] at h
        simp only [Option.some.injEq, Prod.mk.injEq] at h
        obtain ⟨h1, h2, h3⟩ := h
        subst h3; simp

theorem handleDrawEnd_writes (s sf : DOMElementState) (props : DisplayProps)
    (ws : List StyleWrite) (h : handleDrawEnd s props = some (sf, ws)) :
    ∀ w ∈ ws, w = .visibility (visString props.visible) ∨
      w = .transform (transformPayload props.matrix) ∨
      w = .opacity (fix4 props.alpha) := by
  cases hst : s.htmlElement with
  | none =>
    rw [handleDrawEnd_unbound s props hst] at h
    simp only [Option.some.injEq, Prod.mk.injEq] at h
    obtain ⟨h1, h2⟩ := h
    subst h2; simp
  | some st =>
    cases hv : props.visible with
    | false =>
      rw [handleDrawEnd_invisible s props st hst hv] at h
      simp only [Option.some.injEq, Prod.mk.injEq] at h
      obtain ⟨h1, h2⟩ := h
      subst h2
      intro w hw
      left
      rw [visibilityWrites_mem hw]
      simp [visString]
    | true =>
      obtain ⟨⟨st2, op, ws2⟩, hsv⟩ := Option.isSome_iff_exists.mp
        (syncVisible_isSome (applyVisibility "visible" st) s.oldProps
          props.matrix props.alpha)
      rw [handleDrawEnd_visible s props st st2 op ws2 hst hv hsv] at h
      simp only [Option.some.injEq, Prod.mk.injEq] at h
      obtain ⟨h1, h2⟩ := h
      subst h2
      intro w hw
      rcases List.mem_append.mp hw with hw | hw
      · left
        rw [visibilityWrites_mem hw]
        simp [visString]
      · right
        exact syncVisible_writes _ _ _ _ _ _ _ hsv w hw

/-- The complete first synchronization cycle on a fresh binding under the
snapshot carrying translations 3.7 and -2.2. -/
theorem cexRun : handleDrawEnd exS0 cexProps = some (cexS1, cexWrites) := by
  rw [handleDrawEnd_visible exS0 cexProps exStyle0
    { visibility := "visible", transform := some cexP, opacity := some 1 }
    { matrix := cexM, alpha := some 1 }
    [.transform cexP, .opacity 1] rfl rfl]
  · norm_num [visibilityWrites, exStyle0, applyVisibility, visible_ne_empty,
      cexS1, cexWrites]
  · rw [show exS0.oldProps = none from rfl, syncVisible_none]
    norm_num [applyVisibility, exStyle0, visible_ne_empty, cexProps, cexM, cexP,
      transformPayload, fix4, trunc0, ceil_as_floor]

theorem ticksFold_nil (c : ℕ) : ticksFold [] c = c := rfl

theorem ticksFold_cons (b : Bool) (bs : List Bool) (c : ℕ) :
    ticksFold (b :: bs) c = ticksFold bs (tickStep b c) := rfl

theorem stageOn_le_one (c : ℕ) (hc : c ≤ 1) : stageOn c ≤ 1 := by
  unfold stageOn
  split <;> omega

theorem tickStep_le_one (b : Bool) (c : ℕ) (hc : c ≤ 1) : tickStep b c ≤ 1 := by
  cases b
  · simpa [tickStep] using hc
  · simpa [tickStep] using stageOn_le_one c hc

theorem tickStep_true (c : ℕ) (hc : c ≤ 1) : tickStep true c = 1 := by
  unfold tickStep stageOn
  simp only [if_true]
  split <;> omega

theorem tickStep_one (b : Bool) : tickStep b 1 = 1 := by
  cases b <;> simp [tickStep, stageOn]

theorem ticksFold_le_one (bs : List Bool) (c : ℕ) (hc : c ≤ 1) :
    ticksFold bs c ≤ 1 := by
  induction bs generalizing c with
  | nil => simpa [ticksFold_nil] using hc
  | cons b bs ih =>
    rw [ticksFold_cons]
    exact ih (tickStep b c) (tickStep_le_one b c hc)

theorem ticksFold_one (bs : List Bool) : ticksFold bs 1 = 1 := by
  induction bs with
  | nil => rfl
  | cons b bs ih => rw [ticksFold_cons, tickStep_one]; exact ih

theorem ticksFold_true_mem (bs : List Bool) (c : ℕ) (hc : c ≤ 1)
    (hb : true ∈ bs) : ticksFold bs c = 1 := by
  induction bs generalizing c with
  | nil => simp at hb
  | cons b bs ih =>
    rw [ticksFold_cons]
    rcases List.mem_cons.mp hb with hb | hb
    · rw [← hb, tickStep_true c hc]
      exact ticksFold_one bs
    · exact ih (tickStep b c) (tickStep_le_one b c hc) hb

/-- C7: if no element is bound when drawend fires, `_handleDrawEnd` returns
without an error, performs no write, and leaves the cached state (and the
whole instance state) unchanged. -/
theorem domElement_missingBindingNoop (s : DOMElementState) (props : DisplayProps)
    (h : s.htmlElement = none) :
    handleDrawEnd s props = some (s, []) :=
  handleDrawEnd_unbound s props h

theorem domElement_missingBindingNoop_wit :
    handleDrawEnd exSNone cexProps = some (exSNone, []) :=
  domElement_missingBindingNoop exSNone cexProps rfl

/-- C6: every invocation of `clone` fails synchronously with the
unsupported-operation error, and no observable state (binding, cache, element
style) is modified: the state comes back untouched and the write list is
empty. -/
theorem domElement_cloneAlwaysFails (s : DOMElementState) :
    DOMElement.clone s =
      (Except.error "DOMElement cannot be cloned.", s, ([] : List StyleWrite)) :=
  rfl

/-- C8: `cache`, `uncache`, `updateCache`, `hitTest`, `localToGlobal`,
`globalToLocal` and `localToLocal` raise no error, write nothing to the
element, and leave all observable state unchanged, for every argument and any
number of invocations. -/
theorem domElement_stubsNoop (x y w ht sc : ℚ) (comp : String)
    (target : Option ElementStyle) (s : DOMElementState) (n : ℕ) :
    DOMElement.cache x y w ht sc s = (s, []) ∧
    DOMElement.uncache s = (s, []) ∧
    DOMElement.updateCache comp s = (s, []) ∧
    DOMElement.hitTest x y s = (s, []) ∧
    DOMElement.localToGlobal x y s = (s, []) ∧
    DOMElement.globalToLocal x y s = (s, []) ∧
    DOMElement.localToLocal x y target s = (s, []) ∧
    (fun t => (DOMElement.hitTest x y t).1)^[n] s = s :=
  ⟨rfl, rfl, rfl, rfl, rfl, rfl, rfl, Function.iterate_fixed rfl n⟩

/-- C2: in a cycle where an element is bound and the snapshot is not visible,
neither the transform nor the opacity is written and the `_oldProps` cache is
untouched; at most the visibility property is written, and only when it
differs from its current value. -/
theorem domElement_visibilityGating (s : DOMElementState) (props : DisplayProps)
    (st : ElementStyle) (hst : s.htmlElement = some st)
    (hv : props.visible = false) :
    handleDrawEnd s props =
      some ({ s with htmlElement := some (applyVisibility "hidden" st) },
            visibilityWrites "hidden" st) :=
  handleDrawEnd_invisible s props st hst hv

theorem domElement_visibilityGating_wit :
    handleDrawEnd cexS1 cexPropsH =
      some ({ cexS1 with htmlElement := some (applyVisibility "hidden"
               { visibility := "visible", transform := some cexP,
                 opacity := some 1 }) },
            visibilityWrites "hidden"
              { visibility := "visible", transform := some cexP,
                opacity := some 1 }) :=
  domElement_visibilityGating cexS1 cexPropsH
    { visibility := "visible", transform := some cexP, opacity := some 1 }
    rfl rfl

/-- C9: the opacity comparison at line 216 never dereferences an absent
cache: when the cache is absent the matrix branch necessarily runs first
(`matrixStepTaken none mtx` is true) and creates it, so `_handleDrawEnd`
never reaches the null-dereference outcome (`none`) on any input. -/
theorem domElement_opacityCacheSafe (s : DOMElementState) (props : DisplayProps) :
    matrixStepTaken none props.matrix = true ∧ (handleDrawEnd s props).isSome := by
  refine ⟨rfl, ?_⟩
  cases hst : s.htmlElement with
  | none => rw [handleDrawEnd_unbound s props hst]; rfl
  | some st =>
    cases hv : props.visible with
    | false => rw [handleDrawEnd_invisible s props st hst hv]; rfl
    | true =>
      obtain ⟨⟨st2, op, ws2⟩, hsv⟩ := Option.isSome_iff_exists.mp
        (syncVisible_isSome (applyVisibility "visible" st) s.oldProps
          props.matrix props.alpha)
      rw [handleDrawEnd_visible s props st st2 op ws2 hst hv hsv]
      rfl

/-- C3: for a bound element, a second synchronization cycle under an
unchanged TransformSnapshot performs zero writes (and leaves the state
fixed). -/
theorem domElement_writeMinimization (s sf : DOMElementState)
    (props : DisplayProps) (st : ElementStyle) (ws : List StyleWrite)
    (hst : s.htmlElement = some st)
    (h : handleDrawEnd s props = some (sf, ws)) :
    handleDrawEnd sf props = some (sf, []) := by
  cases hv : props.visible with
  | false =>
    rw [handleDrawEnd_invisible s props st hst hv] at h
    simp only [Option.some.injEq, Prod.mk.injEq] at h
    obtain ⟨h1, h2⟩ := h
    subst h1
    have hv2 : (applyVisibility "hidden" st).visibility = "hidden" :=
      applyVisibility_vis "hidden" st
    rw [handleDrawEnd_invisible _ props (applyVisibility "hidden" st) rfl hv,
      applyVisibility_of_eq hv2.symm, visibilityWrites_of_eq hv2.symm]
  | true =>
    obtain ⟨⟨st2, op, ws2⟩, hsv⟩ := Option.isSome_iff_exists.mp
      (syncVisible_isSome (applyVisibility "visible" st) s.oldProps
        props.matrix props.alpha)
    rw [handleDrawEnd_visible s props st st2 op ws2 hst hv hsv] at h
    simp only [Option.some.injEq, Prod.mk.injEq] at h
    obtain ⟨h1, h2⟩ := h
    subst h1
    obtain ⟨hvis, hm, ha⟩ := syncVisible_post _ _ _ _ _ _ _ hsv
    have hvis2 : st2.visibility = "visible" := by
      rw [hvis, applyVisibility_vis]
    have hsv2 : syncVisible (applyVisibility "visible" st2) (some op)
        props.matrix props.alpha = some (st2, op, []) := by
      rw [applyVisibility_of_eq hvis2.symm]
      exact syncVisible_stable st2 op props.matrix props.alpha hm ha
    rw [handleDrawEnd_visible _ props st2 st2 op [] rfl hv hsv2,
      visibilityWrites_of_eq hvis2.symm]
    rfl

theorem domElement_writeMinimization_wit :
    handleDrawEnd cexS1 cexProps = some (cexS1, []) :=
  domElement_writeMinimization exS0 cexS1 cexProps exStyle0 cexWrites rfl cexRun

/-- C5 (spec-modelled subscription registry): with at-most-once registration
per subscriber and once-semantics removal, any sequence of ticks starting
from at most one live registration leaves at most one, the drawend dispatch
runs the handler at most once and clears the registration, and a tick that
reaches the node while attached makes the handler run exactly once for the
cycle. -/
theorem domElement_tickSubscribeOnce (bs : List Bool) (c : ℕ) (hc : c ≤ 1) :
    (drawendDispatch (ticksFold bs c)).1 ≤ 1 ∧
    (drawendDispatch (ticksFold bs c)).2 = 0 ∧
    (true ∈ bs → (drawendDispatch (ticksFold bs c)).1 = 1) :=
  ⟨ticksFold_le_one bs c hc, rfl, fun hb => ticksFold_true_mem bs c hc hb⟩

theorem domElement_tickSubscribeOnce_wit :
    (drawendDispatch (ticksFold [true, true, false] 0)).1 = 1 ∧
    (drawendDispatch (ticksFold [true, true, false] 0)).2 = 0 :=
  ⟨(domElement_tickSubscribeOnce [true, true, false] 0 (by omega)).2.2
      (by simp),
   (domElement_tickSubscribeOnce [true, true, false] 0 (by omega)).2.1⟩

/-- C1 (amended): every transform write emitted by the synchronization
routine carries translations obtained by adding 0.5 and truncating toward
zero; on the spec examples this sends 3.7 to 4 and -2.2 to -1 (not -2). -/
theorem domElement_translationRounding (s sf : DOMElementState)
    (props : DisplayProps) (ws : List StyleWrite) (p : TransformPayload)
    (h : handleDrawEnd s props = some (sf, ws))
    (hp : StyleWrite.transform p ∈ ws) :
    p.tx = trunc0 (props.matrix.tx + 1/2) ∧
    p.ty = trunc0 (props.matrix.ty + 1/2) := by
  rcases handleDrawEnd_writes s sf props ws h (StyleWrite.transform p) hp
    with h1 | h1 | h1
  · exact absurd h1 (by simp)
  · injection h1 with hp2
    subst hp2
    exact ⟨rfl, rfl⟩
  · exact absurd h1 (by simp)

/-- C1 counterexample: on the snapshot with translations exactly 3.7 and
-2.2, the emitted transform write carries translations 4 and -1 — not -2 as
the claim states for the second component. -/
theorem domElement_translationRounding_cex :
    handleDrawEnd exS0 cexProps = some (cexS1, cexWrites) ∧
    StyleWrite.transform cexP ∈ cexWrites ∧
    cexProps.matrix.tx = 37/10 ∧ cexProps.matrix.ty = -11/5 ∧
    cexP.tx = 4 ∧ cexP.ty = -1 ∧ ¬ (cexP.ty = -2) := by
  refine ⟨cexRun, by simp [cexWrites], rfl, rfl, rfl, rfl, ?_⟩
  norm_num [cexP]

theorem domElement_translationRounding_wit :
    cexP.tx = trunc0 (cexProps.matrix.tx + 1/2) ∧
    cexP.ty = trunc0 (cexProps.matrix.ty + 1/2) :=
  domElement_translationRounding exS0 cexS1 cexProps cexWrites cexP cexRun
    (by simp [cexWrites])

/-- C4: whenever the routine writes the placement or the opacity, the four
linear matrix components and the opacity are formatted by `fix4` — multiply
by 10000, truncate toward zero, divide by 10000 — which truncates rather than
rounds to nearest (0.12347 formats as 0.1234, not 0.1235; -0.12345 formats as
-0.1234, truncation toward zero). -/
theorem domElement_fix4Truncation (s sf : DOMElementState) (props : DisplayProps)
    (ws : List StyleWrite) (p : TransformPayload) (q : ℚ)
    (h : handleDrawEnd s props = some (sf, ws)) :
    (StyleWrite.transform p ∈ ws →
      p.a = fix4 props.matrix.a ∧ p.b = fix4 props.matrix.b ∧
      p.c = fix4 props.matrix.c ∧ p.d = fix4 props.matrix.d) ∧
    (StyleWrite.opacity q ∈ ws → q = fix4 props.alpha) ∧
    fix4 ((12347:ℚ)/100000) = 1234/10000 ∧
    ¬ (fix4 ((12347:ℚ)/100000) = 1235/10000) ∧
    fix4 ((-12345:ℚ)/100000) = -1234/10000 := by
  refine ⟨?_, ?_, ?_, ?_, ?_⟩
  · intro hp
    rcases handleDrawEnd_writes s sf props ws h _ hp with h1 | h1 | h1
    · exact absurd h1 (by simp)
    · injection h1 with hp2
      subst hp2
      exact ⟨rfl, rfl, rfl, rfl⟩
    · exact absurd h1 (by simp)
  · intro hq
    rcases handleDrawEnd_writes s sf props ws h _ hq with h1 | h1 | h1
    · exact absurd h1 (by simp)
    · exact absurd h1 (by simp)
    · exact StyleWrite.opacity.inj h1
  · norm_num [fix4, trunc0]
  · norm_num [fix4, trunc0]
  · norm_num [fix4, trunc0, ceil_as_floor]

theorem domElement_fix4Truncation_wit :
    cexP.a = fix4 cexProps.matrix.a ∧ (1:ℚ) = fix4 cexProps.alpha := by
  have h := domElement_fix4Truncation exS0 cexS1 cexProps cexWrites cexP 1 cexRun
  exact ⟨(h.1 (by simp [cexWrites])).1, h.2.1 (by simp [cexWrites])⟩

/-- C10: the opacity change-detection compares the exact snapshot opacity
with the exactly-cached previous opacity, not the truncated 4-decimal value:
after a write the cache holds the raw snapshot opacity, and for the
consecutive opacities 0.5 and 0.50001 (difference below 10^-4) the second
cycle performs an opacity write even though the formatted value is the same
0.5 as before. -/
theorem domElement_opacityExactCompare :
    |exProps10b.alpha - exProps10a.alpha| < 1/10000 ∧
    handleDrawEnd exS0 exProps10a =
      some (exS10b, [.visibility "visible", .transform exPId, .opacity (1/2)]) ∧
    exS10b.oldProps = some { matrix := exMId, alpha := some exProps10a.alpha } ∧
    handleDrawEnd exS10b exProps10b = some (exS10c, [.opacity (1/2)]) ∧
    fix4 exProps10b.alpha = fix4 exProps10a.alpha := by
  refine ⟨?_, ?_, rfl, ?_, ?_⟩
  · rw [show exProps10b.alpha - exProps10a.alpha = 1/100000 from by
      norm_num [exProps10a, exProps10b]]
    rw [abs_of_nonneg (by norm_num : (0:ℚ) ≤ 1/100000)]
    norm_num
  · rw [handleDrawEnd_visible exS0 exProps10a exStyle0
      { visibility := "visible", transform := some exPId, opacity := some (1/2) }
      { matrix := exMId, alpha := some (1/2) }
      [.transform exPId, .opacity (1/2)] rfl rfl]
    · norm_num [visibilityWrites, exStyle0, applyVisibility, visible_ne_empty,
        exS10b]
    · rw [show exS0.oldProps = none from rfl, syncVisible_none]
      norm_num [applyVisibility, exStyle0, visible_ne_empty, exProps10a, exMId,
        exPId, transformPayload, fix4, trunc0]
  · rw [handleDrawEnd_visible exS10b exProps10b
      { visibility := "visible", transform := some exPId, opacity := some (1/2) }
      { visibility := "visible", transform := some exPId, opacity := some (1/2) }
      { matrix := exMId, alpha := some (50001/100000) }
      [.opacity (1/2)] rfl rfl ?hsv]
    · simp [visibilityWrites, exS10c]
    case hsv =>
      rw [show applyVisibility "visible"
            { visibility := "visible", transform := some exPId,
              opacity := some (1/2) } =
          { visibility := "visible", transform := some exPId,
            opacity := some (1/2) } from applyVisibility_of_eq rfl,
        show exS10b.oldProps = some { matrix := exMId, alpha := some (1/2) }
          from rfl,
        syncVisible_alpha_only _ _ _ _
          (by norm_num [matrixStepTaken, Matrix2D.equals, exS10b, exMId,
            exProps10b])
          (by norm_num [alphaNe, exProps10b])]
      norm_num [exProps10b, fix4, trunc0]
  · norm_num [exProps10a, exProps10b, fix4, trunc0]

end EaselJS
